import Mathlib

/-!
Verification of the prettymaps layer fetch-and-compose pipeline
(src/prettymaps/fetch.py and src/prettymaps/draw.py).

Geometries are modelled by their point sets in the plane (`Set (ℝ × ℝ)`).
The shapely geometry algebra and the osmnx retrieval service are external
collaborators of this repository, so their operations are modelled
set-theoretically (buffer, intersection, union, affine maps), and the
operations whose output the library chooses freely (projection, centroids,
the structural type assigned to a row-wise intersection result) are taken
as function parameters at exactly the call sites where the Python code
calls into the library.
-/

namespace Prettymaps

abbrev Pt : Type := ℝ × ℝ

abbrev Geom : Type := Set Pt

/-- Shapely `g.buffer(d)`: outward Euclidean dilation, the set of points within
distance `d` of some point of `g` (stated with squared distances; the source
only ever buffers by nonnegative amounts). -/
def buffer (g : Geom) (d : ℝ) : Geom :=
  setOf fun q => ∃ p ∈ g, (q.1 - p.1) ^ 2 + (q.2 - p.2) ^ 2 ≤ d ^ 2

/-- Shapely `unary_union(l)` / `shapely.ops.unary_union`: the union of a list of
geometries (`unary_union([])` is the empty GeometryCollection). -/
def unary_union (l : List Geom) : Geom :=
  l.foldr (fun a b => a ∪ b) ∅

/-- Point set of shapely `MultiPolygon(parts)`: the parts assembled into one
multi-part geometry. As a point set this is the union of the parts; the
multi-part structure (which `get_geometries` keeps when `union=False`) is not
visible at the point-set level. `MultiPolygon([])` is the valid empty
multi-polygon, not an error. -/
def multiPolygonPts (l : List Geom) : Geom :=
  l.foldr (fun a b => a ∪ b) ∅

/-- The filled axis-aligned square `Polygon([(x-r,y-r),(x+r,y-r),(x+r,y+r),(x-r,y+r)])`
from `get_boundary` (fetch.py lines 38-40), centered at `p` with half-width `r`. -/
def squareAt (p : Pt) (r : ℝ) : Geom :=
  setOf fun q => p.1 - r ≤ q.1 ∧ q.1 ≤ p.1 + r ∧ p.2 - r ≤ q.2 ∧ q.2 ≤ p.2 + r

/-- Shapely `translate(g, xoff, yoff)`: image of the geometry under the
translation. -/
def translateG (xoff yoff : ℝ) (g : Geom) : Geom :=
  (fun p : Pt => (p.1 + xoff, p.2 + yoff)) '' g

/-- fetch.py `get_boundary(point, radius, crs, circle, dilate)` (lines 28-40).
`Point(point[::-1])` reverses the (lat, lon) pair; `ox.project_gdf` is the
external single-point reprojection, taken as the parameter `project`.
If `circle` is true the code returns `projected_point.buffer(radius)` --
note that `dilate` is NOT applied on this branch; if `circle` is false the
code returns the axis-aligned square of half-width `radius` buffered by
`dilate`. -/
def get_boundary (project : Pt → Pt) (point : Pt) (radius : ℝ)
    (circle : Bool) (dilate : ℝ) : Geom :=
  let p := project (point.2, point.1)
  if circle then
    buffer (setOf fun q => q = p) radius
  else
    buffer (squareAt p radius) dilate

/-- A raw feature row fetched by `ox.geometries_from_polygon` /
`ox.geometries_from_point`, classified by its shapely type the way
`get_geometries` inspects it: a `Polygon`, a `MultiPolygon` (carrying its list
of constituent polygons, recoverable in Python via `list(x)`), or any other
(non-areal) geometry type. -/
inductive Feature
  | polygon (g : Geom)
  | multiPolygon (gs : List Geom)
  | other (g : Geom)

/-- The point set of a feature row. -/
def Feature.pts : Feature → Geom
  | .polygon g => g
  | .multiPolygon gs => unary_union gs
  | .other _g => _g

/-- fetch.py lines 70-78: `[x] if type(x) == Polygon else list(x) for x in
geometries if type(x) in [Polygon, MultiPolygon]` -- the polygonal parts kept
from a row; non-areal rows are dropped. -/
def Feature.parts : Feature → List Geom
  | .polygon g => [g]
  | .multiPolygon gs => gs
  | .other _g => []

/-- The anchor of a pipeline run: exactly one of a perimeter (the geometry
column of the perimeter GeoDataFrame) or a point+radius pair is supplied
(fetch.py lines 49-60; supplying neither is a precondition violation). -/
inductive Anchor
  | perimeterA (parts : List Geom)
  | pointRadius (point : Pt) (radius : ℝ)

/-- The clipping perimeter used by `get_geometries`: for a perimeter anchor,
`unary_union(ox.project_gdf(perimeter).geometry)` (line 55), modelled by the
external parameter `projPerimeter`; for a point+radius anchor,
`get_boundary(point, radius, crs, circle, dilate)` (line 60), with the
external single-point projection `project`. -/
def clipPerimeter (projPerimeter : List Geom → Geom) (project : Pt → Pt)
    (anchor : Anchor) (circle : Bool) (dilate : ℝ) : Geom :=
  match anchor with
  | .perimeterA parts => projPerimeter parts
  | .pointRadius point radius => get_boundary project point radius circle dilate

/-- fetch.py `get_geometries` (lines 47-80). The osmnx fetch itself is
external: the rows it returned (from the tolerance-buffered perimeter, or from
within `radius + dilate` of the point) are the parameter `features`. `projF`
is the external `ox.project_gdf` row projection, applied only when the fetch
is nonempty (line 63). `inter` is the external row-wise
`geometries.intersection(perimeter)` (line 67): the library intersects each
row's point set with the perimeter and chooses the structural type of the
result; theorems assume only its point-set contract. The retained polygonal
parts are then merged with `unary_union` when `union` is true, or assembled
into a `MultiPolygon` otherwise (lines 69-78). -/
def get_geometries (inter : Feature → Geom → Feature) (projF : Feature → Feature)
    (projPerimeter : List Geom → Geom) (project : Pt → Pt)
    (anchor : Anchor) (features : List Feature)
    (union circle : Bool) (dilate : ℝ) : Geom :=
  let per := clipPerimeter projPerimeter project anchor circle dilate
  let fs := if 0 < features.length then features.map projF else features
  let parts := ((fs.map (fun f => inter f per)).map Feature.parts).flatten
  if union then unary_union parts else multiPolygonPts parts

/-- An edge geometry in the street GeoDataFrame: osmnx edge geometries are
either a single `LineString` or a `MultiLineString` (carrying its list of
component lines), and `get_streets` dispatches on exactly this distinction
(`streets.geometry.type == 'LineString'` vs `'MultiLineString'`). -/
inductive EdgeGeom
  | lineString (g : Geom)
  | multiLineString (gs : List Geom)

/-- The point set of an edge geometry. -/
def EdgeGeom.pts : EdgeGeom → Geom
  | .lineString g => g
  | .multiLineString gs => unary_union gs

/-- Python `list(lines)` on a `MultiLineString`: its component `LineString`s. -/
def EdgeGeom.components : EdgeGeom → List Geom
  | .lineString g => [g]
  | .multiLineString gs => gs

/-- Whether the shapely type of the edge geometry is `'LineString'`. -/
def EdgeGeom.isLineString : EdgeGeom → Bool
  | .lineString _ => true
  | .multiLineString _ => false

/-- Whether the shapely type of the edge geometry is `'MultiLineString'`. -/
def EdgeGeom.isMultiLineString : EdgeGeom → Bool
  | .lineString _ => false
  | .multiLineString _ => true

/-- One edge row of the street GeoDataFrame: its category label (the value of
the `streets[layer]` column, e.g. the highway type) and its geometry. -/
structure Edge where
  category : String
  geom : EdgeGeom

/-- fetch.py line 112: `streets[(streets[layer] == highway) &
(streets.geometry.type == 'LineString')].geometry.tolist()` -- the
`LineString` edge geometries of one category. -/
def lineStringRows (edges : List Edge) (c : String) : List Geom :=
  (edges.filter (fun e => e.category == c && e.geom.isLineString)).map
    (fun e => e.geom.pts)

/-- fetch.py lines 113-116: `reduce(lambda x, y: x+y, [list(lines) for lines in
streets[(streets[layer] == highway) & (streets.geometry.type ==
'MultiLineString')].geometry], [])` -- the flattened component lines of the
`MultiLineString` edge geometries of one category. -/
def multiLineRows (edges : List Edge) (c : String) : List Geom :=
  ((edges.filter (fun e => e.category == c && e.geom.isMultiLineString)).map
    (fun e => e.geom.components)).flatten

/-- fetch.py lines 108-119, the `type(width) == dict` branch of `get_streets`:
for each `(highway, w)` item of the width mapping, the matching single-line and
multi-line edge geometries are combined into one `MultiLineString` and buffered
by `w`; the per-category ribbons are then merged with `unary_union`. -/
def applyWidthMap (edges : List Edge) (m : List (String × ℝ)) : Geom :=
  unary_union (m.map (fun cw =>
    buffer (unary_union (lineStringRows edges cw.1 ++ multiLineRows edges cw.1)) cw.2))

/-- The shapely `MultiLineString(lines)` constructor as used on fetch.py line
122: it accepts a list of `LineString`s (an empty list is the valid empty
multi-line) and raises a TypeError / AssertionError when handed a geometry
that is not a single `LineString`, such as a `MultiLineString` edge geometry;
`none` models that failure. -/
def multiLineString? (gs : List EdgeGeom) : Option Geom :=
  if gs.all EdgeGeom.isLineString then some (unary_union (gs.map EdgeGeom.pts))
  else none

/-- fetch.py lines 120-122, the scalar-width branch of `get_streets`:
`MultiLineString(streets.geometry.tolist()).buffer(width)`, built directly from
the whole geometry column with no per-representation handling. -/
def applyWidthScalar (edges : List Edge) (w : ℝ) : Option Geom :=
  (multiLineString? (edges.map Edge.geom)).map (fun g => buffer g w)

/-- The `width` argument of `get_streets`: either a single scalar or a mapping
from category label to scalar width (the source dispatches on
`type(width) == dict`). -/
inductive Width
  | scalar (w : ℝ)
  | mapping (m : List (String × ℝ))

/-- fetch.py `get_streets` (lines 83-124) under a perimeter anchor: the graph
is fetched from the unary union of the perimeter by the external
`ox.graph_from_polygon`, projected, and reduced to its edge rows (the
parameter `edges`); the perimeter branch performs NO intersection with the
perimeter (the clipping on lines 104-106 belongs to the point+radius branch
only), so the fetched edges go straight into the width policy. The
point+radius branch (lines 95-106), which additionally clips the edges against
`get_boundary` and drops emptied rows through the external geometry library,
is not needed by any claim below and is not embedded. -/
def get_streets_perimeter (edges : List Edge) (width : Width) : Option Geom :=
  match width with
  | .mapping m => some (applyWidthMap edges m)
  | .scalar w => applyWidthScalar edges w

/-- Modelled from the spec's words (section 4.4): the combined point set of all
edges of one category, matching both the single-line and the multi-line edge
representations. Used only as the specification-side value that the width
policy of `get_streets` is compared against. -/
def categoryPoints (edges : List Edge) (c : String) : Geom :=
  unary_union ((edges.filter (fun e => e.category == c)).map (fun e => e.geom.pts))

/-- The query argument of `plot`, as `parse_query` (draw.py lines 108-116)
inspects it: a shapely `Polygon` or `MultiPolygon`, a tuple of coordinates, a
string, or any other Python value. On any other value the code falls through
to `re.match(pattern, query)`, which raises a TypeError; `otherValue` stands
for those inputs. -/
inductive QueryVal
  | polygonQ (g : Geom)
  | multiPolygonQ (gs : List Geom)
  | coords (lat lon : ℝ)
  | str (s : String)
  | otherValue

/-- The classification returned by `parse_query`. -/
inductive QueryKind
  | polygon
  | coordinates
  | osmid
  | address
deriving DecidableEq

/-- Python `re.match('[A-Z][0-9]+', s)` viewed as a Boolean: `re.match`
anchors at the start of the string only, so it succeeds exactly when the
first character is an ASCII uppercase letter and the second is an ASCII
digit (the remaining characters are unconstrained). -/
def osmIdMatch (s : String) : Bool :=
  match s.data with
  | c1 :: c2 :: _ => c1.isUpper && c2.isDigit
  | _ => false

/-- draw.py `parse_query` (lines 108-116): Polygon/MultiPolygon values map to
`'polygon'`, tuples to `'coordinates'`, strings matching the OSM-id pattern to
`'osmid'` and all other strings to `'address'`; a non-polygon, non-tuple,
non-string value reaches `re.match` and raises a TypeError (`none`). -/
def parse_query : QueryVal → Option QueryKind
  | .polygonQ _ => some .polygon
  | .multiPolygonQ _ => some .polygon
  | .coords _ _ => some .coordinates
  | .str s => some (if osmIdMatch s then .osmid else .address)
  | .otherValue => none

/-- The LayerMap: the ordered mapping from layer name to geometry built and
returned by `plot` (a Python dict, modelled as an association list to keep the
caller-declared insertion order). -/
abbrev LayerMap : Type := List (String × Geom)

/-- draw.py `transform` (lines 119-132). `k, v = zip(*layers.items())` splits
the mapping; `GeometryCollection(v)` makes the values one composite, so every
affine step below applies to all component geometries with shared parameters.
Translation runs only when BOTH `x` and `y` are non-None and shifts by the
target minus the composite centroid (`np.array([x, y]) -
np.concatenate(v.centroid.xy)`); the scale and rotate steps default their
origin to the composite's center, so the centroid of the collection and the
shapely affine ops with their library-chosen origins are the external
parameters `centroid`, `scaleOp` and `rotateOp`; `dict(zip(k, v))` reassembles
the mapping from the transformed components. -/
def transform (centroid : List Geom → Pt)
    (scaleOp : List Geom → ℝ → ℝ → List Geom)
    (rotateOp : List Geom → ℝ → List Geom)
    (layers : LayerMap) (x y scale_x scale_y rot : Option ℝ) : LayerMap :=
  let k := layers.map Prod.fst
  let v := layers.map Prod.snd
  let v := match x, y with
    | some a, some b =>
        let c := centroid v
        v.map (translateG (a - c.1) (b - c.2))
    | _, _ => v
  let v := match scale_x with
    | some sx => scaleOp v sx 1
    | none => v
  let v := match scale_y with
    | some sy => scaleOp v 1 sy
    | none => v
  let v := match rot with
    | some a => rotateOp v a
    | none => v
  k.zip v

/-- The per-layer keyword-argument record declared by the caller of `plot`.
`plot` itself only ever inspects the `dilate` entry (for `max_dilation`,
draw.py line 165); the full bag is forwarded verbatim to `get_layer`, which is
abstracted in the embedding of `plot` (see there). -/
structure LayerOpts where
  dilate : Option ℝ

/-- Python `layers['perimeter']`-style dict lookup on the association list. -/
def lookupLayer (lm : LayerMap) (key : String) : Option Geom :=
  (lm.find? (fun kv => kv.1 == key)).map (fun kv => kv.2)

/-- The ways the embedded part of `plot` can raise: the TypeError from
`re.match` inside `parse_query` on a non-string/tuple/polygon query, and the
KeyError from `layers['perimeter']` (draw.py line 232) when the map has no
`perimeter` entry. -/
inductive PlotErr
  | typeError
  | keyError
deriving DecidableEq

/-- draw.py `plot` (lines 138-265), restricted to the layer pipeline it
specifies: the rendering calls (matplotlib/vsketch, backgrounds, captions) are
outside the embedded core and do not affect the returned mapping, except that
the unconditional bounds adjustment `layers['perimeter'].buffer(max_dilation)
.bounds` (line 232) raises a KeyError when the map lacks a `perimeter` entry,
which is kept.

Order of operations, as in the source: `parse_query(query)` runs FIRST (line
162, before the backup check); `max_dilation` is computed from the declared
layer options (lines 165-166); if `backup` is not None the backup simply
replaces `layers` and the whole fetch/transform/postprocessing block is the
`else` branch (lines 173-203); otherwise each declared layer (and only the
declared layers) is fetched by `get_layer(layer, **base_kwargs, **kwargs)`.
Anchor resolution (`base_kwargs`: geocoding, `get_perimeter`) and the
`get_layer` dispatch run entirely against the external osmnx service, so the
resolved fetch is the function parameter `getLayer`; `centroid`, `scaleOp`
and `rotateOp` are the external geometry operations needed by `transform`. -/
def plot (centroid : List Geom → Pt)
    (scaleOp : List Geom → ℝ → ℝ → List Geom)
    (rotateOp : List Geom → ℝ → List Geom)
    (getLayer : String → LayerOpts → Geom)
    (query : QueryVal) (backup : Option LayerMap)
    (postprocessing : Option (LayerMap → LayerMap))
    (layers : List (String × LayerOpts))
    (x y scale_x scale_y rot : Option ℝ) : Except PlotErr LayerMap :=
  match parse_query query with
  | none => .error .typeError
  | some _query_mode =>
    let dilations := layers.filterMap (fun l => l.2.dilate)
    let _max_dilation : ℝ := match dilations with
      | [] => 0
      | d :: ds => ds.foldl max d
    let lm : LayerMap :=
      match backup with
      | some b => b
      | none =>
        let fetched := layers.map (fun l => (l.1, getLayer l.1 l.2))
        let t := transform centroid scaleOp rotateOp fetched x y scale_x scale_y rot
        match postprocessing with
        | some f => f t
        | none => t
    match lookupLayer lm "perimeter" with
    | none => .error .keyError
    | some _ => .ok lm

/-! Helper lemmas shared by the claim theorems. -/

theorem mem_unary_union {x : Pt} {l : List Geom} :
    x ∈ unary_union l ↔ ∃ g ∈ l, x ∈ g := by
  induction l with
  | nil => simp [unary_union]
  | cons a t ih =>
      show x ∈ a ∪ unary_union t ↔ _
      simp [Set.mem_union, ih]

theorem subset_buffer_self (g : Geom) (d : ℝ) : g ⊆ buffer g d := by
  intro q hq
  refine ⟨q, hq, ?_⟩
  have h0 : (q.1 - q.1) ^ 2 + (q.2 - q.2) ^ 2 = 0 := by ring
  rw [h0]
  positivity

theorem parts_subset_pts {f : Feature} {g : Geom} (hg : g ∈ f.parts) : g ⊆ f.pts := by
  cases f with
  | polygon p =>
      simp [Feature.parts] at hg
      subst hg
      exact fun x hx => hx
  | multiPolygon gs =>
      intro x hx
      exact mem_unary_union.mpr ⟨g, by simpa [Feature.parts] using hg, hx⟩
  | other p => simp [Feature.parts] at hg

theorem zip_map_fst_snd (l : LayerMap) :
    (l.map Prod.fst).zip (l.map Prod.snd) = l := by
  induction l with
  | nil => rfl
  | cons a t ih => simp [ih]

theorem zip_map_fst_map (l : LayerMap) (f : Geom → Geom) :
    (l.map Prod.fst).zip ((l.map Prod.snd).map f)
      = l.map (fun kv => (kv.1, f kv.2)) := by
  induction l with
  | nil => rfl
  | cons a t ih =>
      simp only [List.map_cons, List.zip_cons_cons, List.map_map] at ih ⊢
      simp [ih]

theorem transform_fst (centroid : List Geom → Pt)
    (scaleOp : List Geom → ℝ → ℝ → List Geom) (rotateOp : List Geom → ℝ → List Geom)
    (hs : ∀ v a b, (scaleOp v a b).length = v.length)
    (hr : ∀ v a, (rotateOp v a).length = v.length)
    (lm : LayerMap) (x y sx sy rot : Option ℝ) :
    (transform centroid scaleOp rotateOp lm x y sx sy rot).map Prod.fst
      = lm.map Prod.fst := by
  rcases x with _ | a <;> rcases y with _ | b <;> rcases sx with _ | sx <;>
    rcases sy with _ | sy <;> rcases rot with _ | rot <;>
    (simp only [transform]; rw [List.map_fst_zip]; simp [hs, hr])

theorem lookupLayer_isSome (lm : LayerMap) (key : String) :
    (lookupLayer lm key).isSome = true ↔ key ∈ lm.map Prod.fst := by
  simp [lookupLayer, List.find?_isSome, List.mem_map, beq_iff_eq]

/-! Claim theorems. -/

/-- C7: for every call to the area-layer fetcher (`get_geometries`) in which
the feature retrieval yields zero features, the function returns an empty
geometry and does not raise an error, for both `union = true` and
`union = false` (and under either anchor form). The embedding is total because
every operation on the empty row list is well defined in the source
(`unary_union([])` and `MultiPolygon([])` are valid empty geometries). -/
theorem get_geometries_empty_fetch_is_empty
    (inter : Feature → Geom → Feature) (projF : Feature → Feature)
    (projPerimeter : List Geom → Geom) (project : Pt → Pt)
    (anchor : Anchor) (union circle : Bool) (dilate : ℝ) :
    get_geometries inter projF projPerimeter project anchor [] union circle dilate
      = ∅ := by
  cases union <;> rfl

/-- C4 (code bug): the claim says the circle branch of `get_boundary` returns
the disk of radius `radius` outward-buffered by `dilate`, but the code
(fetch.py lines 29-32) returns `projected_point.buffer(radius)` and never
applies `dilate` on that branch (the square branch does, and callers pre-fetch
within `radius + dilate`). Evaluated at the failing input `point = (0, 0)`,
`radius = 1`, `circle = true`, `dilate = 1`: the code yields the bare unit
disk, while the claimed result additionally contains the point `(2, 0)`. -/
theorem get_boundary_circle_ignores_dilate :
    get_boundary id ((0:ℝ), (0:ℝ)) 1 true 1
        = buffer (setOf fun q : Pt => q = ((0:ℝ), (0:ℝ))) 1 ∧
    ((2:ℝ), (0:ℝ)) ∈ buffer (buffer (setOf fun q : Pt => q = ((0:ℝ), (0:ℝ))) 1) 1 ∧
    ((2:ℝ), (0:ℝ)) ∉ get_boundary id ((0:ℝ), (0:ℝ)) 1 true 1 := by
  refine ⟨rfl, ?_, ?_⟩
  · exact ⟨((1:ℝ), (0:ℝ)), ⟨((0:ℝ), (0:ℝ)), rfl, by norm_num⟩, by norm_num⟩
  · rintro ⟨p, hp, hd⟩
    have hp0 : p = ((0:ℝ), (0:ℝ)) := hp
    subst hp0
    norm_num at hd

/-- C8: the query classifier `parse_query` is pure and total on its contract
domain (Polygon/MultiPolygon values, tuples and strings): every such input is
mapped to exactly one of the four kinds, and every string that fails the
anchored `[A-Z][0-9]+` OSM-id pattern falls through to `address`. -/
theorem parse_query_total_and_fallthrough :
    (∀ q : QueryVal, q ≠ QueryVal.otherValue → (parse_query q).isSome = true) ∧
    (∀ s : String, osmIdMatch s = false →
      parse_query (QueryVal.str s) = some QueryKind.address) := by
  constructor
  · intro q hq
    cases q <;> first | rfl | exact absurd rfl hq
  · intro s hs
    simp [parse_query, hs]

/-- Witness: the C8 theorem applied at the concrete string "hello". -/
theorem parse_query_total_and_fallthrough_witness :
    (parse_query (QueryVal.str "hello")).isSome = true ∧
    parse_query (QueryVal.str "hello") = some QueryKind.address :=
  ⟨parse_query_total_and_fallthrough.1 (QueryVal.str "hello")
      (fun h => QueryVal.noConfusion h),
   parse_query_total_and_fallthrough.2 "hello" (by decide)⟩

/-- C9: `plot` calls `parse_query(query)` first (draw.py line 162), before the
backup check, so a query value that is not a Polygon/MultiPolygon, a tuple or
a string makes the run fail with the TypeError from `re.match` even when a
backup LayerMap is supplied. -/
theorem plot_classifies_query_despite_backup
    (centroid : List Geom → Pt) (scaleOp : List Geom → ℝ → ℝ → List Geom)
    (rotateOp : List Geom → ℝ → List Geom) (getLayer : String → LayerOpts → Geom)
    (q : QueryVal) (hq : parse_query q = none)
    (b : LayerMap) (post : Option (LayerMap → LayerMap))
    (layers : List (String × LayerOpts)) (x y sx sy rot : Option ℝ) :
    plot centroid scaleOp rotateOp getLayer q (some b) post layers x y sx sy rot
      = Except.error PlotErr.typeError := by
  simp [plot, hq]

/-- Witness: the C9 theorem applied at the concrete non-classifiable query. -/
theorem plot_classifies_query_despite_backup_witness :
    plot (fun _ => ((0:ℝ), (0:ℝ))) (fun v _ _ => v) (fun v _ => v)
        (fun _ _ => (∅ : Geom)) QueryVal.otherValue
        (some [("perimeter", (∅ : Geom))]) none [] none none none none none
      = Except.error PlotErr.typeError :=
  plot_classifies_query_despite_backup _ _ _ _ QueryVal.otherValue rfl _ _ _ _ _ _ _ _

/-- C1 counterexample: the claim says a supplied backup is returned after the
optional transform and postprocessing have still been applied, but in the
source both steps live in the `else` branch of the backup check (draw.py lines
173-203) and are skipped. At this concrete input `plot` returns the backup
`[("perimeter", ∅)]` unchanged, while the value the claim predicts -- the
postprocessing function applied after the transform -- is a two-entry map,
which differs from it. -/
theorem plot_backup_applies_postprocessing_refuted :
    plot (fun _ => ((0:ℝ), (0:ℝ))) (fun v _ _ => v) (fun v _ => v)
        (fun _ _ => (∅ : Geom)) (QueryVal.str "a")
        (some [("perimeter", (∅ : Geom))])
        (some (fun _ => [("perimeter", (∅ : Geom)), ("background", (∅ : Geom))]))
        [] none none none none none
      = Except.ok [("perimeter", (∅ : Geom))] ∧
    (fun _ : LayerMap => [("perimeter", (∅ : Geom)), ("background", (∅ : Geom))])
        (transform (fun _ => ((0:ℝ), (0:ℝ))) (fun v _ _ => v) (fun v _ => v)
          [("perimeter", (∅ : Geom))] none none none none none)
      ≠ [("perimeter", (∅ : Geom))] := by
  refine ⟨rfl, fun h => ?_⟩
  simpa using congrArg List.length h

/-- C1 amended: if a backup LayerMap with a `perimeter` entry is supplied (and
the query is classifiable at all, see C9), `plot` performs no layer fetching
and returns the backup exactly as-is; the transform and postprocessing steps
are skipped, not applied. The fetch collaborator `getLayer` is universally
quantified and the conclusion does not depend on it, which is the no-fetch
part of the statement. -/
theorem plot_backup_returned_as_is
    (centroid : List Geom → Pt) (scaleOp : List Geom → ℝ → ℝ → List Geom)
    (rotateOp : List Geom → ℝ → List Geom) (getLayer : String → LayerOpts → Geom)
    (q : QueryVal) (b : LayerMap) (post : Option (LayerMap → LayerMap))
    (layers : List (String × LayerOpts)) (x y sx sy rot : Option ℝ)
    (hq : (parse_query q).isSome = true)
    (hper : (lookupLayer b "perimeter").isSome = true) :
    plot centroid scaleOp rotateOp getLayer q (some b) post layers x y sx sy rot
      = Except.ok b := by
  obtain ⟨k, hk⟩ := Option.isSome_iff_exists.mp hq
  obtain ⟨g, hg⟩ := Option.isSome_iff_exists.mp hper
  simp [plot, hk, hg]

/-- Witness: the amended C1 theorem applied at a concrete backup. -/
theorem plot_backup_returned_as_is_witness :
    plot (fun _ => ((0:ℝ), (0:ℝ))) (fun v _ _ => v) (fun v _ => v)
        (fun _ _ => (∅ : Geom)) (QueryVal.str "a")
        (some [("perimeter", (∅ : Geom))]) none [] none none none none none
      = Except.ok [("perimeter", (∅ : Geom))] :=
  plot_backup_returned_as_is _ _ _ _ _ _ _ _ _ _ _ _ _ rfl rfl

/-- C2 counterexample: the claim says the fetched LayerMap contains a
`perimeter` entry even when the caller's declared layer set omits it, with the
perimeter fetched implicitly. In the source the fetch comprehension (draw.py
lines 189-196) ranges over exactly the declared layers, so with the declared
set `[("streets", _)]` no perimeter is fetched and the run fails with the
KeyError from `layers['perimeter']` at the bounds adjustment (line 232)
instead of returning a LayerMap containing `perimeter`. -/
theorem plot_omitted_perimeter_keyerror :
    plot (fun _ => ((0:ℝ), (0:ℝ))) (fun v _ _ => v) (fun v _ => v)
        (fun _ _ => (∅ : Geom)) (QueryVal.str "a") none none
        [("streets", ⟨none⟩)] none none none none none
      = Except.error PlotErr.keyError := rfl

/-- C2 amended: the pipeline fetches exactly the caller-declared layers and
never adds an implicit `perimeter`: on the fetch path (no backup, no
postprocessing, any transform parameters, any library scale/rotate operations
that keep the composite's component count) the returned LayerMap is precisely
the transform of the per-declared-layer fetches, its keys are the declared
keys in order, and when `perimeter` is among the declared keys the run
succeeds while when it is omitted the run fails with a KeyError at the bounds
step. -/
theorem plot_fetches_exactly_declared_layers
    (centroid : List Geom → Pt) (scaleOp : List Geom → ℝ → ℝ → List Geom)
    (rotateOp : List Geom → ℝ → List Geom) (getLayer : String → LayerOpts → Geom)
    (q : QueryVal) (layers : List (String × LayerOpts)) (x y sx sy rot : Option ℝ)
    (hs : ∀ v a b, (scaleOp v a b).length = v.length)
    (hr : ∀ v a, (rotateOp v a).length = v.length)
    (hq : (parse_query q).isSome = true) :
    (("perimeter" ∈ layers.map Prod.fst) →
      plot centroid scaleOp rotateOp getLayer q none none layers x y sx sy rot
          = Except.ok (transform centroid scaleOp rotateOp
              (layers.map (fun l => (l.1, getLayer l.1 l.2))) x y sx sy rot) ∧
      (transform centroid scaleOp rotateOp
          (layers.map (fun l => (l.1, getLayer l.1 l.2))) x y sx sy rot).map Prod.fst
        = layers.map Prod.fst) ∧
    (("perimeter" ∉ layers.map Prod.fst) →
      plot centroid scaleOp rotateOp getLayer q none none layers x y sx sy rot
        = Except.error PlotErr.keyError) := by
  obtain ⟨k, hk⟩ := Option.isSome_iff_exists.mp hq
  have tkeys : (transform centroid scaleOp rotateOp
      (layers.map (fun l => (l.1, getLayer l.1 l.2))) x y sx sy rot).map Prod.fst
      = layers.map Prod.fst := by
    rw [transform_fst centroid scaleOp rotateOp hs hr]
    simp
  constructor
  · intro hmem
    have hsome : (lookupLayer (transform centroid scaleOp rotateOp
        (layers.map (fun l => (l.1, getLayer l.1 l.2))) x y sx sy rot)
          "perimeter").isSome = true := by
      rw [lookupLayer_isSome, tkeys]
      exact hmem
    obtain ⟨g, hg⟩ := Option.isSome_iff_exists.mp hsome
    exact ⟨by simp [plot, hk, hg], tkeys⟩
  · intro hmem
    have hnone : lookupLayer (transform centroid scaleOp rotateOp
        (layers.map (fun l => (l.1, getLayer l.1 l.2))) x y sx sy rot)
          "perimeter" = none := by
      by_contra hne
      have hsome := Option.ne_none_iff_isSome.mp hne
      rw [lookupLayer_isSome, tkeys] at hsome
      exact hmem hsome
    simp [plot, hk, hnone]

/-- Witness: the amended C2 theorem applied at a concrete declared layer set
omitting the perimeter. -/
theorem plot_fetches_exactly_declared_layers_witness :
    plot (fun _ => ((0:ℝ), (0:ℝ))) (fun v _ _ => v) (fun v _ => v)
        (fun _ _ => (∅ : Geom)) (QueryVal.str "a") none none
        [("streets", (⟨none⟩ : LayerOpts))] none none none none none
      = Except.error PlotErr.keyError :=
  (plot_fetches_exactly_declared_layers _ _ _ _ (QueryVal.str "a") _ _ _ _ _ _
      (fun _ _ _ => rfl) (fun _ _ => rfl) rfl).2 (by simp)

/-- C5 counterexample: the claim says the x and y translation targets are
independently nullable, translating along the supplied axis only. In the
source (draw.py line 123) the translation runs only when BOTH are non-None, so
with `x = 5` and `y = None` the composite is returned untranslated; the
geometry the claim predicts (the square shifted by 5 along x, with y skipped)
differs from the actual unchanged square at the origin. -/
theorem transform_x_only_skips_translate :
    transform (fun _ => ((0:ℝ), (0:ℝ))) (fun v _ _ => v) (fun v _ => v)
        [("perimeter", squareAt ((0:ℝ), (0:ℝ)) 1)] (some 5) none none none none
      = [("perimeter", squareAt ((0:ℝ), (0:ℝ)) 1)] ∧
    ((0:ℝ), (0:ℝ)) ∈ squareAt ((0:ℝ), (0:ℝ)) 1 ∧
    ((0:ℝ), (0:ℝ)) ∉ translateG ((5:ℝ) - 0) ((0:ℝ) - 0)
        (squareAt ((0:ℝ), (0:ℝ)) 1) := by
  refine ⟨rfl, ?_, ?_⟩
  · show (0:ℝ) - 1 ≤ 0 ∧ (0:ℝ) ≤ 0 + 1 ∧ (0:ℝ) - 1 ≤ 0 ∧ (0:ℝ) ≤ 0 + 1
    norm_num
  · rintro ⟨p, hp, hpe⟩
    obtain ⟨h2, -, -, -⟩ := hp
    have h1 := congrArg Prod.fst hpe
    simp at h1
    norm_num at h2
    linarith

/-- C5 amended: the translation step of `transform` applies only when both `x`
and `y` are supplied; supplying only one axis target leaves the composite
entirely untranslated (with the other operations absent the mapping is
returned unchanged), and when both are supplied every layer geometry is
shifted by the target minus the composite centroid. -/
theorem transform_translate_requires_both_axes
    (centroid : List Geom → Pt) (scaleOp : List Geom → ℝ → ℝ → List Geom)
    (rotateOp : List Geom → ℝ → List Geom) (layers : LayerMap) :
    (∀ a : ℝ, transform centroid scaleOp rotateOp layers
        (some a) none none none none = layers) ∧
    (∀ b : ℝ, transform centroid scaleOp rotateOp layers
        none (some b) none none none = layers) ∧
    (∀ a b : ℝ, transform centroid scaleOp rotateOp layers
        (some a) (some b) none none none
      = layers.map (fun kv => (kv.1,
          translateG (a - (centroid (layers.map Prod.snd)).1)
            (b - (centroid (layers.map Prod.snd)).2) kv.2))) := by
  refine ⟨fun a => ?_, fun b => ?_, fun a b => ?_⟩
  · simp only [transform]
    exact zip_map_fst_snd layers
  · simp only [transform]
    exact zip_map_fst_snd layers
  · simp only [transform]
    exact zip_map_fst_map layers _

theorem mem_flatten_parts {x : Pt} {inter : Feature → Geom → Feature}
    (hinter : ∀ f per, (inter f per).pts = f.pts ∩ per)
    {fs : List Feature} {per : Geom}
    (hx : x ∈ unary_union ((fs.map (fun f => inter f per)).map Feature.parts).flatten) :
    x ∈ per := by
  obtain ⟨g, hg, hxg⟩ := mem_unary_union.mp hx
  obtain ⟨pl, hpl, hgpl⟩ := List.mem_flatten.mp hg
  obtain ⟨f', hf', rfl⟩ := List.mem_map.mp hpl
  have hpts : x ∈ f'.pts := parts_subset_pts hgpl hxg
  obtain ⟨f0, hf0, rfl⟩ := List.mem_map.mp hf'
  rw [hinter] at hpts
  exact hpts.2

/-- C3 counterexample: a network layer under a perimeter anchor violates the
containment claim. `get_streets` with a perimeter anchor performs no clipping
at all (fetch.py lines 89-93 fetch and convert only; the intersection on lines
104-106 belongs to the point+radius branch), and the width policy then buffers
the edges by their width. Here a one-edge fetch whose geometry lies inside the
perimeter (the unit square), buffered by width 10 with `dilate = 0`, contains
the point (6, 0), which lies outside `perimeter.buffer(0)`. -/
theorem street_layer_exceeds_dilated_perimeter :
    (setOf (fun q : Pt => q = ((1:ℝ), (0:ℝ)))) ⊆ squareAt ((0:ℝ), (0:ℝ)) 1 ∧
    get_streets_perimeter
        [⟨"residential", EdgeGeom.lineString (setOf (fun q : Pt => q = ((1:ℝ), (0:ℝ))))⟩]
        (Width.mapping [("residential", 10)])
      = some (applyWidthMap
          [⟨"residential", EdgeGeom.lineString (setOf (fun q : Pt => q = ((1:ℝ), (0:ℝ))))⟩]
          [("residential", 10)]) ∧
    ((6:ℝ), (0:ℝ)) ∈ applyWidthMap
        [⟨"residential", EdgeGeom.lineString (setOf (fun q : Pt => q = ((1:ℝ), (0:ℝ))))⟩]
        [("residential", 10)] ∧
    ((6:ℝ), (0:ℝ)) ∉ buffer (squareAt ((0:ℝ), (0:ℝ)) 1) 0 := by
  refine ⟨?_, rfl, ?_, ?_⟩
  · intro q hq
    have hq1 : q = ((1:ℝ), (0:ℝ)) := hq
    subst hq1
    show (0:ℝ) - 1 ≤ 1 ∧ (1:ℝ) ≤ 0 + 1 ∧ (0:ℝ) - 1 ≤ 0 ∧ (0:ℝ) ≤ 0 + 1
    norm_num
  · apply mem_unary_union.mpr
    refine ⟨buffer (unary_union
        (lineStringRows
          [⟨"residential", EdgeGeom.lineString (setOf (fun q : Pt => q = ((1:ℝ), (0:ℝ))))⟩]
          "residential" ++
         multiLineRows
          [⟨"residential", EdgeGeom.lineString (setOf (fun q : Pt => q = ((1:ℝ), (0:ℝ))))⟩]
          "residential")) 10, ?_, ?_⟩
    · simp [applyWidthMap]
    · refine ⟨((1:ℝ), (0:ℝ)), ?_, by norm_num⟩
      apply mem_unary_union.mpr
      refine ⟨setOf (fun q : Pt => q = ((1:ℝ), (0:ℝ))), ?_, rfl⟩
      simp [lineStringRows, multiLineRows, EdgeGeom.isLineString,
        EdgeGeom.isMultiLineString, EdgeGeom.pts]
  · rintro ⟨p, hp, hd⟩
    obtain ⟨-, hb, -, -⟩ := hp
    norm_num at hb hd
    nlinarith [sq_nonneg (6 - p.1), sq_nonneg (0 - p.2)]

/-- C3 amended: the containment invariant holds for the area-layer fetcher:
for either anchor form, the geometry returned by `get_geometries` is contained
in the clipping perimeter itself and hence in the clipping perimeter
outward-buffered by any amount, in particular by the layer's own `dilate`
(instantiate `d := dilate`). The hypothesis is the point-set contract of the
external row-wise intersection. Network layers do NOT satisfy the original
claim (see the counterexample): with a perimeter anchor `get_streets` never
clips, and its result is only bounded by the perimeter buffered by the
street width. -/
theorem area_layer_contained_in_dilated_perimeter
    (inter : Feature → Geom → Feature)
    (hinter : ∀ f per, (inter f per).pts = f.pts ∩ per)
    (projF : Feature → Feature) (projPerimeter : List Geom → Geom)
    (project : Pt → Pt) (anchor : Anchor) (features : List Feature)
    (union circle : Bool) (d dilate : ℝ) :
    get_geometries inter projF projPerimeter project anchor features union circle dilate
      ⊆ buffer (clipPerimeter projPerimeter project anchor circle dilate) d := by
  intro x hx
  apply subset_buffer_self
  cases union
  · exact mem_flatten_parts hinter hx
  · exact mem_flatten_parts hinter hx

/-- Witness: the amended C3 theorem applied at a concrete intersection
operation satisfying the point-set contract. -/
theorem area_layer_contained_in_dilated_perimeter_witness :
    get_geometries (fun f per => Feature.polygon (f.pts ∩ per)) id (fun _ => ∅) id
        (Anchor.perimeterA []) [] true true 0
      ⊆ buffer (clipPerimeter (fun _ => ∅) id (Anchor.perimeterA []) true 0) 0 :=
  area_layer_contained_in_dilated_perimeter
    (fun f per => Feature.polygon (f.pts ∩ per)) (fun _ _ => rfl) _ _ _ _ _ _ _ _ _

theorem mem_categoryPoints {x : Pt} {edges : List Edge} {c : String} :
    x ∈ categoryPoints edges c ↔ ∃ e ∈ edges, e.category = c ∧ x ∈ e.geom.pts := by
  simp only [categoryPoints, mem_unary_union, List.mem_map, List.mem_filter,
    beq_iff_eq]
  constructor
  · rintro ⟨g, ⟨e, ⟨he, hc⟩, rfl⟩, hx⟩
    exact ⟨e, he, hc, hx⟩
  · rintro ⟨e, he, hc, hx⟩
    exact ⟨e.geom.pts, ⟨e, ⟨he, hc⟩, rfl⟩, hx⟩

theorem mem_lineStringRows_union {x : Pt} {edges : List Edge} {c : String} :
    x ∈ unary_union (lineStringRows edges c) ↔
      ∃ e ∈ edges, e.category = c ∧ e.geom.isLineString = true ∧ x ∈ e.geom.pts := by
  simp only [mem_unary_union, lineStringRows, List.mem_map, List.mem_filter,
    Bool.and_eq_true, beq_iff_eq]
  constructor
  · rintro ⟨g, ⟨e, ⟨he, hc, hls⟩, rfl⟩, hx⟩
    exact ⟨e, he, hc, hls, hx⟩
  · rintro ⟨e, he, hc, hls, hx⟩
    exact ⟨e.geom.pts, ⟨e, ⟨he, hc, hls⟩, rfl⟩, hx⟩

theorem mem_multiLineRows_union {x : Pt} {edges : List Edge} {c : String} :
    x ∈ unary_union (multiLineRows edges c) ↔
      ∃ e ∈ edges, e.category = c ∧ e.geom.isMultiLineString = true ∧
        x ∈ e.geom.pts := by
  simp only [mem_unary_union, multiLineRows, List.mem_flatten, List.mem_map,
    List.mem_filter, Bool.and_eq_true, beq_iff_eq]
  constructor
  · rintro ⟨g, ⟨pl, ⟨e, ⟨he, hc, hm⟩, rfl⟩, hg⟩, hx⟩
    refine ⟨e, he, hc, hm, ?_⟩
    cases hgeom : e.geom with
    | lineString g0 =>
        rw [hgeom] at hm
        exact absurd hm (by simp [EdgeGeom.isMultiLineString])
    | multiLineString gs =>
        rw [hgeom] at hg
        simp only [EdgeGeom.components] at hg
        show x ∈ unary_union gs
        exact mem_unary_union.mpr ⟨g, hg, hx⟩
  · rintro ⟨e, he, hc, hm, hx⟩
    cases hgeom : e.geom with
    | lineString g0 =>
        rw [hgeom] at hm
        exact absurd hm (by simp [EdgeGeom.isMultiLineString])
    | multiLineString gs =>
        rw [hgeom] at hx
        obtain ⟨g, hg, hxg⟩ :=
          mem_unary_union.mp (show x ∈ unary_union gs from hx)
        refine ⟨g, ⟨e.geom.components, ⟨e, ⟨he, hc, hm⟩, rfl⟩, ?_⟩, hxg⟩
        rw [hgeom]
        simpa [EdgeGeom.components] using hg

theorem rows_eq_categoryPoints (edges : List Edge) (c : String) :
    unary_union (lineStringRows edges c ++ multiLineRows edges c)
      = categoryPoints edges c := by
  ext x
  have happ : x ∈ unary_union (lineStringRows edges c ++ multiLineRows edges c) ↔
      x ∈ unary_union (lineStringRows edges c) ∨
        x ∈ unary_union (multiLineRows edges c) := by
    simp [mem_unary_union, List.mem_append, or_and_right, exists_or]
  rw [happ, mem_lineStringRows_union, mem_multiLineRows_union, mem_categoryPoints]
  constructor
  · rintro (⟨e, he, hc, -, hx⟩ | ⟨e, he, hc, -, hx⟩) <;> exact ⟨e, he, hc, hx⟩
  · rintro ⟨e, he, hc, hx⟩
    cases hgeom : e.geom with
    | lineString g0 => exact Or.inl ⟨e, he, hc, by rw [hgeom]; rfl, hx⟩
    | multiLineString gs => exact Or.inr ⟨e, he, hc, by rw [hgeom]; rfl, hx⟩

theorem filter_member_categories (edges : List Edge) (m : List (String × ℝ))
    (p : Edge → Bool) (c : String) (w : ℝ) (hc : (c, w) ∈ m) :
    (edges.filter (fun e => m.any (fun cw => cw.1 == e.category))).filter
        (fun e => e.category == c && p e)
      = edges.filter (fun e => e.category == c && p e) := by
  rw [List.filter_filter]
  apply List.filter_congr
  intro e _
  rcases hq : (e.category == c && p e) with _ | _
  · simp [hq]
  · have hcat : e.category = c := beq_iff_eq.mp ((Bool.and_eq_true _ _).mp hq).1
    have hany : (m.any (fun cw => cw.1 == e.category)) = true :=
      List.any_eq_true.mpr ⟨(c, w), hc, by simp [hcat]⟩
    simp [hq, hany]

theorem lineStringRows_filter (edges : List Edge) (m : List (String × ℝ))
    (c : String) (w : ℝ) (hc : (c, w) ∈ m) :
    lineStringRows (edges.filter (fun e => m.any (fun cw => cw.1 == e.category))) c
      = lineStringRows edges c := by
  unfold lineStringRows
  rw [filter_member_categories edges m _ c w hc]

theorem multiLineRows_filter (edges : List Edge) (m : List (String × ℝ))
    (c : String) (w : ℝ) (hc : (c, w) ∈ m) :
    multiLineRows (edges.filter (fun e => m.any (fun cw => cw.1 == e.category))) c
      = multiLineRows edges c := by
  unfold multiLineRows
  rw [filter_member_categories edges m _ c w hc]

/-- C6: for a network layer whose width is a mapping from category label to
scalar, the width policy of `get_streets` (fetch.py lines 108-119) yields
exactly the union, over the mapping's items, of the buffer of that category's
combined edges (matching both the single-line and multi-line representations,
`categoryPoints`) by that category's width; and edges whose category is absent
from the mapping contribute nothing: restricting the fetched edges to those
whose category occurs in the mapping leaves the result unchanged. -/
theorem width_mapping_union_of_buffered_categories
    (edges : List Edge) (m : List (String × ℝ)) :
    get_streets_perimeter edges (Width.mapping m)
      = some (unary_union
          (m.map (fun cw => buffer (categoryPoints edges cw.1) cw.2))) ∧
    applyWidthMap (edges.filter (fun e => m.any (fun cw => cw.1 == e.category))) m
      = applyWidthMap edges m := by
  constructor
  · have hmap : m.map (fun cw =>
        buffer (unary_union (lineStringRows edges cw.1 ++ multiLineRows edges cw.1))
          cw.2)
        = m.map (fun cw => buffer (categoryPoints edges cw.1) cw.2) :=
      List.map_congr_left (fun cw _ => by rw [rows_eq_categoryPoints])
    show some (applyWidthMap edges m) = _
    unfold applyWidthMap
    rw [hmap]
  · have hmap2 : m.map (fun cw =>
        buffer (unary_union
          (lineStringRows (edges.filter
              (fun e => m.any (fun cw => cw.1 == e.category))) cw.1 ++
           multiLineRows (edges.filter
              (fun e => m.any (fun cw => cw.1 == e.category))) cw.1)) cw.2)
        = m.map (fun cw =>
        buffer (unary_union (lineStringRows edges cw.1 ++ multiLineRows edges cw.1))
          cw.2) :=
      List.map_congr_left (fun cw hcw => by
        rw [lineStringRows_filter edges m cw.1 cw.2 (by simpa using hcw),
          multiLineRows_filter edges m cw.1 cw.2 (by simpa using hcw)])
    unfold applyWidthMap
    rw [hmap2]

/-- C10: the scalar-width branch of `get_streets` (fetch.py lines 120-122)
builds one `MultiLineString` directly from the whole edge-geometry list, so it
is defined exactly when every fetched edge geometry is a single `LineString`;
a `MultiLineString` edge geometry (which the mapping-width branch handles
separately on lines 113-116) makes the constructor, and hence the branch,
fail. -/
theorem scalar_width_defined_iff_all_linestrings (edges : List Edge) (w : ℝ) :
    (get_streets_perimeter edges (Width.scalar w)).isSome = true ↔
      ∀ e ∈ edges, e.geom.isLineString = true := by
  have hiff : ((edges.map Edge.geom).all EdgeGeom.isLineString = true) ↔
      ∀ e ∈ edges, e.geom.isLineString = true := by
    simp [List.all_eq_true]
  rw [← hiff]
  rcases hall : (edges.map Edge.geom).all EdgeGeom.isLineString with _ | _
  · simp [get_streets_perimeter, applyWidthScalar, multiLineString?, hall]
  · simp [get_streets_perimeter, applyWidthScalar, multiLineString?, hall]

/-- Witness: the C10 theorem applied at the concrete empty edge list. -/
theorem scalar_width_defined_iff_all_linestrings_witness :
    (get_streets_perimeter [] (Width.scalar 1)).isSome = true :=
  (scalar_width_defined_iff_all_linestrings [] 1).mpr (by simp)

end Prettymaps
